import Mathlib

/-!
Verification development for the fdot network-device discovery pipeline.

This file shallowly embeds the Go code of the repository nzions/fdot:
the vendor detector and device factory (pkg/fdh/netdevice/factory.go),
the HP/Aruba parser/adapter (pkg/fdh/netdevice/genericaruba), the SSH
command transport (pkg/fdh/netssh/client.go), the command-output cache
(pkg/fdh/netmodel/commandcache.go) and the discovery orchestrator
(cmd/netcrawl/netcrawl/discoverDevice.go), and proves properties the
specification states about them.

Machine integers are modelled as Nat/Int (Go int and time.Duration are
64-bit; every value in scope is far below overflow).  Strings are
modelled at the level of Unicode characters with ASCII case folding:
every marker, pattern literal and separator in the source is ASCII, so
Go's byte-level operations and these character-level operations agree on
the inputs the program handles.  Filesystem, clock and network effects
are modelled by explicit state passing and by environment records that
describe what the outside world answers.  Go regular expressions are
embedded through a small backtracking engine with leftmost-first
semantics, the semantics Go's regexp package documents for submatches.
-/

namespace GoStr

/-- The whitespace characters matched by the RE2 escape backslash-s,
namely tab, newline, form feed, carriage return and space. -/
def isSpaceRE2 (c : Char) : Bool :=
  c = '\t' || c = '\n' || c = '\x0c' || c = '\r' || c = ' '

/-- The whitespace set used by Go strings.TrimSpace and strings.Fields
(unicode.IsSpace), restricted to ASCII: tab, newline, vertical tab,
form feed, carriage return and space. -/
def isSpaceGo (c : Char) : Bool :=
  c = '\t' || c = '\n' || c = '\x0b' || c = '\x0c' || c = '\r' || c = ' '

/-- ASCII lower-casing of one character (Go strings.ToLower restricted
to ASCII input). -/
def lowerChar (c : Char) : Char :=
  if 'A' ≤ c ∧ c ≤ 'Z' then Char.ofNat (c.toNat + 32) else c

/-- Embedding of Go strings.ToLower (ASCII scope). -/
def goToLower (s : String) : String :=
  String.mk (s.data.map lowerChar)

/-- Embedding of Go strings.Contains: substring containment. -/
def goContains (s sub : String) : Bool :=
  decide (sub.data <:+: s.data)

/-- Embedding of Go strings.HasPrefix. -/
def hasPrefixGo (s pre : String) : Bool :=
  decide (pre.data <+: s.data)

/-- Embedding of Go strings.TrimSpace (ASCII whitespace scope). -/
def goTrimSpace (s : String) : String :=
  String.mk (((s.data.dropWhile isSpaceGo).reverse.dropWhile isSpaceGo).reverse)

/-- Splitting a character list at every occurrence of a separator
character; the list of segments is never empty.  This is Go
strings.Split with a one-character separator. -/
def splitChar (sep : Char) : List Char → List (List Char)
  | [] => [[]]
  | c :: cs =>
    if c = sep then [] :: splitChar sep cs
    else
      match splitChar sep cs with
      | h :: t => (c :: h) :: t
      | [] => [[c]]

/-- Embedding of Go strings.Split for a one-character separator. -/
def goSplit (s : String) (sep : Char) : List String :=
  (splitChar sep s.data).map String.mk

/-- Embedding of Go strings.Fields (ASCII whitespace scope): the
maximal runs of non-whitespace characters. -/
def goFields (s : String) : List String :=
  ((s.data.splitOnP isSpaceGo).filter (· ≠ [])).map String.mk

/-- Decimal digit test. -/
def isDigit (c : Char) : Bool := '0' ≤ c ∧ c ≤ '9'

/-- Value of a string of decimal digits. -/
def digitsVal (l : List Char) : Nat :=
  l.foldl (fun acc c => acc * 10 + (c.toNat - 48)) 0

/-- Embedding of Go strconv.Atoi: an optional sign followed by one or
more decimal digits, nothing else; overflow is not modelled (Go int is
64-bit and every input in scope is small). -/
def goAtoi (s : String) : Option Int :=
  let (neg, ds) : Bool × List Char :=
    match s.data with
    | '+' :: rest => (false, rest)
    | '-' :: rest => (true, rest)
    | l => (false, l)
  if ds = [] then none
  else if ds.all isDigit then
    some (if neg then -(digitsVal ds : Int) else (digitsVal ds : Int))
  else none

/-- Embedding of Go strings.ReplaceAll for one-character patterns. -/
def goReplaceAllChar (s : String) (old new : Char) : String :=
  String.mk (s.data.map (fun c => if c = old then new else c))

end GoStr

namespace GoTime

/-- One pass of Go time.fmtFrac: digits of the fraction are emitted
from least significant to most significant, omitting trailing zeros;
returns the accumulated text, the remaining value, and whether any
digit was printed. -/
def fmtFracAux : Nat → Nat → Bool → String → String × Nat × Bool
  | u, 0, pr, acc => (acc, u, pr)
  | u, p + 1, pr, acc =>
    let d := u % 10
    let pr' := pr || d ≠ 0
    let acc' := if pr' then String.singleton (Char.ofNat (48 + d)) ++ acc else acc
    fmtFracAux (u / 10) p pr' acc'

/-- Embedding of Go time.fmtFrac: the fractional part of u with prec
digits, trailing zeros and an all-zero fraction omitted. -/
def fmtFrac (u prec : Nat) : String × Nat :=
  let (s, v, pr) := fmtFracAux u prec false ""
  (if pr then "." ++ s else "", v)

/-- Embedding of Go time.Duration.String for a duration counted in
nanoseconds. -/
def durationString (d : Int) : String :=
  let u := d.natAbs
  let body :=
    if u < 1000000000 then
      if u = 0 then "0s"
      else if u < 1000 then toString u ++ "ns"
      else if u < 1000000 then
        let (f, v) := fmtFrac u 3
        toString v ++ f ++ "µs"
      else
        let (f, v) := fmtFrac u 6
        toString v ++ f ++ "ms"
    else
      let (f, v) := fmtFrac u 9
      let secs := toString (v % 60) ++ f ++ "s"
      let v' := v / 60
      if v' > 0 then
        let mins := toString (v' % 60) ++ "m" ++ secs
        let v'' := v' / 60
        if v'' > 0 then toString v'' ++ "h" ++ mins else mins
      else secs
  if d < 0 ∧ u ≠ 0 then "-" ++ body else body

end GoTime

namespace Re

/-- Abstract syntax of the regular expressions the repository uses:
character classes, concatenation, alternation, greedy and lazy
repetition, capture groups and the two anchors.  Alternation is
ordered (leftmost-first), as in Go's regexp submatch semantics. -/
inductive RE where
  | eps : RE
  | cls : (Char → Bool) → RE
  | cat : RE → RE → RE
  | alt : RE → RE → RE
  | starG : RE → RE
  | starL : RE → RE
  | grp : Nat → RE → RE
  | bol : RE
  | eol : RE

/-- Structural size of a pattern, used only to choose a fuel bound. -/
def size : RE → Nat
  | .eps => 1
  | .cls _ => 1
  | .cat a b => size a + size b + 1
  | .alt a b => size a + size b + 1
  | .starG a => size a + 1
  | .starL a => size a + 1
  | .grp _ a => size a + 1
  | .bol => 1
  | .eol => 1

/-- Recorded captures: group number with start and end positions. -/
abbrev Caps := List (Nat × Nat × Nat)

/-- Backtracking matcher in continuation-passing style.  The
continuation receives the position, the remaining characters and the
captures; alternatives are tried left to right, greedy stars prefer the
longer match and lazy stars the shorter, giving exactly the
leftmost-first (Perl-order) semantics Go's regexp documents.  Fuel
bounds the depth of the search stack and is chosen large enough for
every pattern and input in this development. -/
def matchRe : Nat → RE → Nat → List Char → Caps →
    (Nat → List Char → Caps → Option (Nat × Caps)) → Option (Nat × Caps)
  | 0, _, _, _, _, _ => none
  | fuel + 1, r, pos, rest, caps, k =>
    match r with
    | .eps => k pos rest caps
    | .cls p =>
      match rest with
      | [] => none
      | c :: rest' => if p c then k (pos + 1) rest' caps else none
    | .cat a b =>
      matchRe fuel a pos rest caps (fun p' r' c' => matchRe fuel b p' r' c' k)
    | .alt a b =>
      match matchRe fuel a pos rest caps k with
      | some res => some res
      | none => matchRe fuel b pos rest caps k
    | .starG a =>
      match matchRe fuel a pos rest caps
          (fun p' r' c' => matchRe fuel (.starG a) p' r' c' k) with
      | some res => some res
      | none => k pos rest caps
    | .starL a =>
      match k pos rest caps with
      | some res => some res
      | none =>
        matchRe fuel a pos rest caps
          (fun p' r' c' => matchRe fuel (.starL a) p' r' c' k)
    | .grp n a =>
      matchRe fuel a pos rest caps (fun p' r' c' => k p' r' ((n, pos, p') :: c'))
    | .bol => if pos = 0 then k pos rest caps else none
    | .eol =>
      match rest with
      | [] => k pos rest caps
      | _ :: _ => none

/-- Attempt a match of the whole pattern starting at one position. -/
def matchAt (r : RE) (fuel pos : Nat) (rest : List Char) : Option (Nat × Caps) :=
  matchRe fuel r pos rest [] (fun p _ c => some (p, c))

/-- Scan start positions left to right, returning the leftmost match:
Go regexp.FindStringSubmatch search order. -/
def findAux (r : RE) (fuel : Nat) : Nat → List Char → Option (Nat × Nat × Caps)
  | pos, rest =>
    match matchAt r fuel pos rest with
    | some (e, caps) => some (pos, e, caps)
    | none =>
      match rest with
      | [] => none
      | _ :: rest' => findAux r fuel (pos + 1) rest'

/-- A successful match: the subject, the bounds of the whole match and
the captures. -/
structure MatchResult where
  subject : List Char
  start : Nat
  stop : Nat
  caps : Caps
deriving DecidableEq

/-- The substring of a character list between two positions. -/
def subOf (l : List Char) (a b : Nat) : String :=
  String.mk ((l.drop a).take (b - a))

/-- Group accessor: group 0 is the whole match; an absent group reads
as the empty string, as Go's FindStringSubmatch reports it. -/
def MatchResult.group (m : MatchResult) (n : Nat) : String :=
  if n = 0 then subOf m.subject m.start m.stop
  else
    match m.caps.find? (fun c => c.1 = n) with
    | some (_, a, b) => subOf m.subject a b
    | none => ""

/-- Fuel sufficient for every pattern/input pair in this development:
the search stack never grows deeper than one frame per pattern node per
star iteration, and star iterations consume input. -/
def fuelFor (r : RE) (len : Nat) : Nat :=
  (size r + 2) * (len + 2) + 16

/-- Embedding of Go regexp FindStringSubmatch: leftmost match with
submatches, or none. -/
def find (r : RE) (s : String) : Option MatchResult :=
  let l := s.data
  match findAux r (fuelFor r l.length) 0 l with
  | some (st, e, caps) => some ⟨l, st, e, caps⟩
  | none => none

/-- One-character class for a literal character. -/
def chr (c : Char) : RE := .cls (fun x => x = c)

/-- Case-insensitive literal character (ASCII folding). -/
def chrCI (c : Char) : RE := .cls (fun x => GoStr.lowerChar x = GoStr.lowerChar c)

/-- Literal string. -/
def str (s : String) : RE := s.data.foldr (fun c acc => .cat (chr c) acc) .eps

/-- Case-insensitive literal string. -/
def strCI (s : String) : RE := s.data.foldr (fun c acc => .cat (chrCI c) acc) .eps

/-- Greedy plus. -/
def plusG (r : RE) : RE := .cat r (.starG r)

/-- Lazy plus. -/
def plusL (r : RE) : RE := .cat r (.starL r)

/-- Greedy option. -/
def opt (r : RE) : RE := .alt r .eps

/-- Fixed repetition. -/
def repN : Nat → RE → RE
  | 0, _ => .eps
  | n + 1, r => .cat r (repN n r)

/-- The RE2 escape backslash-s as a class. -/
def ws : RE := .cls GoStr.isSpaceRE2

/-- The RE2 escape backslash-d as a class. -/
def digit : RE := .cls GoStr.isDigit

/-- Membership in the RE2 escape backslash-w. -/
def isWordChar (c : Char) : Bool :=
  ('a' ≤ c ∧ c ≤ 'z') || ('A' ≤ c ∧ c ≤ 'Z') || GoStr.isDigit c || c = '_'

/-- The dot: any character but newline. -/
def dotC : RE := .cls (fun c => c ≠ '\n')

end Re

namespace SHA256

/-- Reduction modulo 2 to the 32. -/
def w32 (n : Nat) : Nat := n % 4294967296

/-- 32-bit right rotation. -/
def rotr (n x : Nat) : Nat := w32 ((x >>> n) ||| (x <<< (32 - n)))

/-- 32-bit bitwise complement. -/
def bnot (x : Nat) : Nat := x ^^^ 4294967295

/-- SHA-256 choice function. -/
def ch (x y z : Nat) : Nat := (x &&& y) ^^^ (bnot x &&& z)

/-- SHA-256 majority function. -/
def maj (x y z : Nat) : Nat := (x &&& y) ^^^ (x &&& z) ^^^ (y &&& z)

/-- SHA-256 big sigma 0. -/
def bsig0 (x : Nat) : Nat := rotr 2 x ^^^ rotr 13 x ^^^ rotr 22 x

/-- SHA-256 big sigma 1. -/
def bsig1 (x : Nat) : Nat := rotr 6 x ^^^ rotr 11 x ^^^ rotr 25 x

/-- SHA-256 small sigma 0. -/
def ssig0 (x : Nat) : Nat := rotr 7 x ^^^ rotr 18 x ^^^ (x >>> 3)

/-- SHA-256 small sigma 1. -/
def ssig1 (x : Nat) : Nat := rotr 17 x ^^^ rotr 19 x ^^^ (x >>> 10)

/-- The 64 SHA-256 round constants of FIPS 180-4, written in
decimal. -/
def K : List Nat :=
  [1116352408, 1899447441, 3049323471, 3921009573, 961987163,
   1508970993, 2453635748, 2870763221, 3624381080, 310598401,
   607225278, 1426881987, 1925078388, 2162078206, 2614888103,
   3248222580, 3835390401, 4022224774, 264347078, 604807628,
   770255983, 1249150122, 1555081692, 1996064986, 2554220882,
   2821834349, 2952996808, 3210313671, 3336571891, 3584528711,
   113926993, 338241895, 666307205, 773529912, 1294757372,
   1396182291, 1695183700, 1986661051, 2177026350, 2456956037,
   2730485921, 2820302411, 3259730800, 3345764771, 3516065817,
   3600352804, 4094571909, 275423344, 430227734, 506948616,
   659060556, 883997877, 958139571, 1322822218, 1537002063,
   1747873779, 1955562222, 2024104815, 2227730452, 2361852424,
   2428436474, 2756734187, 3204031479, 3329325298]

/-- The eight SHA-256 initial hash words of FIPS 180-4, written in
decimal. -/
def H0 : List Nat :=
  [1779033703, 3144134277, 1013904242, 2773480762,
   1359893119, 2600822924, 528734635, 1541459225]

/-- Message padding: a 1 bit, zeros to 56 mod 64 bytes, then the bit
length as a 64-bit big-endian integer. -/
def pad (msg : List Nat) : List Nat :=
  let l := msg.length
  let zeros := (64 + 56 - (l + 1) % 64) % 64
  let lenBits := l * 8
  msg ++ [0x80] ++ List.replicate zeros 0 ++
    (List.range 8).map (fun i => (lenBits >>> ((7 - i) * 8)) &&& 0xff)

/-- Split a list into chunks of the given positive size (the sizes
used below are 4 and 64). -/
def chunks (n : Nat) : List Nat → List (List Nat)
  | [] => []
  | c :: cs => (c :: cs.take (n - 1)) :: chunks n (cs.drop (n - 1))
  termination_by l => l.length
  decreasing_by simp [List.length_drop]; omega

/-- Big-endian 32-bit words of a 64-byte block. -/
def wordsOfBlock (block : List Nat) : List Nat :=
  (chunks 4 block).map (fun w => w.foldl (fun acc b => acc * 256 + b) 0)

/-- The 64-entry message schedule extended from the 16 block words. -/
def schedule (ws : List Nat) : List Nat :=
  (List.range 48).foldl
    (fun acc _ =>
      let n := acc.length
      acc ++ [w32 (ssig1 (acc.get! (n - 2)) + acc.get! (n - 7) +
                   ssig0 (acc.get! (n - 15)) + acc.get! (n - 16))])
    ws

/-- One compression round. -/
def roundStep (st : List Nat) (kw : Nat × Nat) : List Nat :=
  match st with
  | [a, b, c, d, e, f, g, h] =>
    let t1 := w32 (h + bsig1 e + ch e f g + kw.1 + kw.2)
    let t2 := w32 (bsig0 a + maj a b c)
    [w32 (t1 + t2), a, b, c, w32 (d + t1), e, f, g]
  | other => other

/-- Compress one 64-byte block into the running hash. -/
def compress (h : List Nat) (block : List Nat) : List Nat :=
  let st := (K.zip (schedule (wordsOfBlock block))).foldl roundStep h
  (h.zip st).map (fun p => w32 (p.1 + p.2))

/-- The SHA-256 digest of a byte list, as 32 bytes. -/
def digest (msg : List Nat) : List Nat :=
  let hs := (chunks 64 (pad msg)).foldl compress H0
  hs.flatMap (fun w => (List.range 4).map (fun i => (w >>> ((3 - i) * 8)) &&& 0xff))

/-- Lower-case hexadecimal character of a nibble. -/
def hexChar (n : Nat) : Char :=
  if n < 10 then Char.ofNat (48 + n) else Char.ofNat (87 + n)

/-- Lower-case hexadecimal rendering of a byte list (Go
hex.EncodeToString). -/
def hexString (bytes : List Nat) : String :=
  String.mk (bytes.flatMap (fun b => [hexChar (b / 16), hexChar (b % 16)]))

/-- UTF-8 bytes of one character. -/
def utf8Char (c : Char) : List Nat :=
  let n := c.toNat
  if n < 0x80 then [n]
  else if n < 0x800 then [0xc0 ||| (n >>> 6), 0x80 ||| (n &&& 0x3f)]
  else if n < 0x10000 then
    [0xe0 ||| (n >>> 12), 0x80 ||| ((n >>> 6) &&& 0x3f), 0x80 ||| (n &&& 0x3f)]
  else
    [0xf0 ||| (n >>> 18), 0x80 ||| ((n >>> 12) &&& 0x3f),
     0x80 ||| ((n >>> 6) &&& 0x3f), 0x80 ||| (n &&& 0x3f)]

/-- UTF-8 bytes of a string, Go's byte view of it. -/
def strBytes (s : String) : List Nat := s.data.flatMap utf8Char

end SHA256

namespace credmgr

/-- A username/password credential (pkg/fdh/credmgr unpw.go). -/
structure UserCred where
  username : String
  password : String
deriving DecidableEq

/-- Outcome of loading SSH credentials: the sentinel not-found error is
distinguished from every other failure, as DiscoverDevice requires. -/
inductive CredError where
  | errNotFound
  | err (msg : String)
deriving DecidableEq

end credmgr

namespace netmodel

/-- Interface from pkg/fdh/netmodel (one network interface or VLAN
found in configuration). -/
structure Interface where
  name : String := ""
  description : String := ""
  ipAddress : String := ""
  subnet : String := ""
  vrf : String := ""
  status : String := ""
  protocol : String := ""
  vlans : List Int := []
deriving DecidableEq

/-- Neighbor from pkg/fdh/netmodel (one LLDP/CDP adjacency). -/
structure Neighbor where
  localInterface : String := ""
  remoteHostname : String := ""
  remoteInterface : String := ""
  platform : String := ""
  ipAddress : String := ""
  capabilities : String := ""
deriving DecidableEq

/-- DeviceInfo from pkg/fdh/netmodel: the discovered device record.
Timestamps are modelled as integers. -/
structure DeviceInfo where
  hostname : String := ""
  ipAddress : String := ""
  platform : String := ""
  osVersion : String := ""
  model : String := ""
  serial : String := ""
  uptime : String := ""
  discoveredAt : Int := 0
  lastUpdated : Int := 0
  interfaces : List Interface := []
  neighbors : List Neighbor := []
  rawOutputDir : String := ""
deriving DecidableEq

/-- CacheConfig from pkg/fdh/netmodel: TTL in nanoseconds. -/
structure CacheConfig where
  enabled : Bool
  ttl : Int
  baseDir : String
deriving DecidableEq

/-- DefaultCacheConfig: enabled, five-minute TTL, empty base dir. -/
def DefaultCacheConfig : CacheConfig :=
  { enabled := true, ttl := 5 * 60 * 1000000000, baseDir := "" }

/-- The filesystem as the cache sees it: an association of paths to
content and modification time; a write shadows earlier entries. -/
abbrev FS := List (String × String × Int)

/-- Modification time of a path (os.Stat), if the file exists. -/
def fsStat (fs : FS) (p : String) : Option Int :=
  (fs.find? (fun e => e.1 = p)).map (fun e => e.2.2)

/-- Content of a path (os.ReadFile), if the file exists. -/
def fsRead (fs : FS) (p : String) : Option String :=
  (fs.find? (fun e => e.1 = p)).map (fun e => e.2.1)

/-- Writing a file sets its content and modification time
(os.WriteFile; the write is modelled as always succeeding). -/
def fsWrite (fs : FS) (p content : String) (now : Int) : FS :=
  (p, content, now) :: fs

/-- os.TempDir, fixed to the usual value. -/
def goTempDir : String := "/tmp"

open GoStr in
/-- Embedding of sanitizeCommandForFilename (commandcache.go): the
first 30 bytes of the command; space, slash and pipe become
underscores, and so does every byte that is not an ASCII letter, digit,
underscore or hyphen — the replacements and the final character map
compose into this single byte map. -/
def sanitizeCommandForFilename (command : String) : String :=
  let bytes := (SHA256.strBytes command).take 30
  String.mk (bytes.map (fun b =>
    if (97 ≤ b ∧ b ≤ 122) ∨ (65 ≤ b ∧ b ≤ 90) ∨ (48 ≤ b ∧ b ≤ 57) ∨ b = 95 ∨ b = 45 then
      Char.ofNat b
    else '_'))

open GoStr in
/-- Embedding of getCacheFilePath (commandcache.go):
base/sanitizedIP/prefix_hash16.txt. -/
def getCacheFilePath (cfg : CacheConfig) (deviceIP command : String) : String :=
  let baseDir := if cfg.baseDir = "" then goTempDir ++ "/fdot-cache" else cfg.baseDir
  let sanitizedIP := goReplaceAllChar (goReplaceAllChar deviceIP ':' '_') '.' '_'
  let commandHash := (SHA256.hexString (SHA256.digest (SHA256.strBytes command))).take 16
  let commandPrefix := sanitizeCommandForFilename command
  let filename := commandPrefix ++ "_" ++ commandHash ++ ".txt"
  baseDir ++ "/" ++ sanitizedIP ++ "/" ++ filename

/-- Embedding of CommandCache.GetCachedOutput: a hit requires caching
enabled, an existing file, and age at most the TTL. -/
def GetCachedOutput (cfg : CacheConfig) (fs : FS) (now : Int)
    (deviceIP command : String) : String × Bool :=
  if !cfg.enabled then ("", false)
  else
    let filePath := getCacheFilePath cfg deviceIP command
    match fsStat fs filePath with
    | none => ("", false)
    | some mtime =>
      if now - mtime > cfg.ttl then ("", false)
      else
        match fsRead fs filePath with
        | none => ("", false)
        | some content => (content, true)

/-- Embedding of CommandCache.SaveOutput: a no-op when caching is
disabled, otherwise a write of the output at the derived path
(directory creation and the write are modelled as succeeding). -/
def SaveOutput (cfg : CacheConfig) (fs : FS) (now : Int)
    (deviceIP command output : String) : FS :=
  if !cfg.enabled then fs
  else fsWrite fs (getCacheFilePath cfg deviceIP command) output now

end netmodel

namespace netssh

/-- Config from pkg/fdh/netssh/client.go; the timeout is in
nanoseconds. -/
structure Config where
  host : String
  port : Int
  credentials : credmgr.UserCred
  timeout : Int
  cacheConfig : Option netmodel.CacheConfig
deriving DecidableEq

/-- Client from pkg/fdh/netssh/client.go.  The ssh.ClientConfig is
flattened into the user, password and dial-timeout fields; conn mirrors
the connection pointer, none meaning nil (not connected). -/
structure Client where
  user : String
  password : String
  dialTimeout : Int
  conn : Option Unit
  host : String
  port : Int
  cache : netmodel.CacheConfig
deriving DecidableEq

/-- Embedding of NewClient: defaults port 22 and timeout 30 s and the
default cache config; the connection starts nil. -/
def NewClient (cfg : Config) : Client :=
  let port := if cfg.port = 0 then 22 else cfg.port
  let timeout := if cfg.timeout = 0 then 30 * 1000000000 else cfg.timeout
  let cacheCfg := cfg.cacheConfig.getD netmodel.DefaultCacheConfig
  { user := cfg.credentials.username, password := cfg.credentials.password,
    dialTimeout := timeout, conn := none, host := cfg.host, port := port,
    cache := cacheCfg }

/-- Embedding of Client.Connect: the dial either fails (environment
supplies the cause) or establishes the connection. -/
def Connect (c : Client) (dialErr : Option String) : Except String Client :=
  match dialErr with
  | some e =>
    .error ("failed to dial " ++ c.host ++ ":" ++ toString c.port ++ ": " ++ e)
  | none => .ok { c with conn := some () }

/-- executeOptions from client.go. -/
structure ExecOptions where
  noCache : Bool
  timeout : Int
deriving DecidableEq

/-- OptNoCache functional option. -/
def OptNoCache : ExecOptions → ExecOptions :=
  fun o => { o with noCache := true }

/-- OptTimeout functional option. -/
def OptTimeout (t : Int) : ExecOptions → ExecOptions :=
  fun o => { o with timeout := t }

/-- The option-folding loop of ExecuteCommand: defaults noCache false
and timeout 30 s, then each option applied in order. -/
def parseOptions (opts : List (ExecOptions → ExecOptions)) : ExecOptions :=
  opts.foldl (fun o f => f o) { noCache := false, timeout := 30 * 1000000000 }

/-- What the SSH session layer answers during one command execution:
the possible failure of each setup step, the bytes drained from the two
streams, the session-completion error, and whether the timeout fired
before the drain finished. -/
structure ExecEnv where
  newSessionErr : Option String := none
  ptyErr : Option String := none
  stdoutPipeErr : Option String := none
  stderrPipeErr : Option String := none
  startErr : Option String := none
  readStdoutErr : Option String := none
  readStderrErr : Option String := none
  stdoutBytes : String := ""
  stderrBytes : String := ""
  waitErr : Option String := none
  timedOut : Bool := false
deriving DecidableEq

/-- Embedding of executeCommandInternal (client.go): session setup,
concurrent drain of stdout/stderr, wait, and the race against the
timeout.  A wait error is surfaced only when no stdout bytes were
captured; on success any stderr content is appended after a newline. -/
def executeCommandInternal (env : ExecEnv) (cmd : String)
    (opts : ExecOptions) : Except String String :=
  match env.newSessionErr with
  | some e => .error ("failed to create session: " ++ e)
  | none =>
  match env.ptyErr with
  | some e => .error ("request for pseudo terminal failed: " ++ e)
  | none =>
  match env.stdoutPipeErr with
  | some e => .error ("failed to get stdout pipe: " ++ e)
  | none =>
  match env.stderrPipeErr with
  | some e => .error ("failed to get stderr pipe: " ++ e)
  | none =>
  match env.startErr with
  | some e => .error ("failed to start command: " ++ e)
  | none =>
    let drained : Except String String :=
      match env.readStdoutErr with
      | some e => .error ("failed to read stdout: " ++ e)
      | none =>
      match env.readStderrErr with
      | some e => .error ("failed to read stderr: " ++ e)
      | none =>
        let output :=
          env.stdoutBytes ++
            if env.stderrBytes.length > 0 then "\n" ++ env.stderrBytes else ""
        match env.waitErr with
        | some w =>
          if env.stdoutBytes.length = 0 then
            .error ("command failed: " ++ w ++ " (stderr: " ++ env.stderrBytes ++ ")")
          else .ok output
        | none => .ok output
    if env.timedOut then
      .error ("command execution timed out after " ++ GoTime.durationString opts.timeout)
    else drained

/-- Embedding of Client.ExecuteCommand: requires an established
connection, consults the cache unless disabled, executes the command,
and on success writes the output back to the cache (a cache-write
failure is ignored in the source; the write is modelled as
succeeding). -/
def ExecuteCommand (c : Client) (fs : netmodel.FS) (now : Int) (env : ExecEnv)
    (cmd : String) (opts : List (ExecOptions → ExecOptions)) :
    Except String String × netmodel.FS :=
  match c.conn with
  | none => (.error "not connected - call Connect() first", fs)
  | some _ =>
    let execOpts := parseOptions opts
    if !execOpts.noCache ∧ (netmodel.GetCachedOutput c.cache fs now c.host cmd).2 then
      (.ok (netmodel.GetCachedOutput c.cache fs now c.host cmd).1, fs)
    else
      match executeCommandInternal env cmd execOpts with
      | .error e => (.error e, fs)
      | .ok output =>
        let fs' :=
          if !execOpts.noCache then netmodel.SaveOutput c.cache fs now c.host cmd output
          else fs
        (.ok output, fs')

end netssh

namespace genericaruba

open Re GoStr

/-- The alternation HP, ProCurve, Aruba (case-insensitive), in source
order. -/
def vendorAlt : RE := .alt (strCI "HP") (.alt (strCI "ProCurve") (strCI "Aruba"))

/-- The class of word characters or hyphen. -/
def wordDash : RE := .cls (fun c => isWordChar c || c = '-')

/-- An ASCII letter: the class A to Z under case-insensitive
matching. -/
def letterCI : RE :=
  .cls (fun c => ('A' ≤ c ∧ c ≤ 'Z') || ('a' ≤ c ∧ c ≤ 'z'))

/-- The class J or K under case-insensitive matching. -/
def jkCI : RE := .cls (fun c => c = 'J' || c = 'K' || c = 'j' || c = 'k')

/-- platformRe from parse_show_version.go: a vendor word, whitespace,
then a captured word-or-hyphen run. -/
def platformRe : RE :=
  .cat vendorAlt (.cat (plusG ws) (.grp 1 (plusG wordDash)))

/-- modelRe from parse_show_version.go: optional vendor word, optional
whitespace, optional J or K, four digits, optional letter, whitespace,
then a word-or-hyphen run; the whole match is the capture. -/
def modelRe : RE :=
  .grp 1 (.cat (opt vendorAlt) (.cat (.starG ws) (.cat (opt jkCI)
    (.cat (repN 4 digit) (.cat (opt letterCI)
      (.cat (plusG ws) (plusG wordDash)))))))

/-- versionRe from parse_show_version.go: a revision keyword,
whitespace, then two letters and three dotted digit runs captured. -/
def versionRe : RE :=
  .cat (.alt (strCI "revision") (.alt (strCI "software revision") (strCI "version")))
    (.cat (plusG ws) (.grp 1 (.cat (repN 2 letterCI)
      (.cat (chr '.') (.cat (plusG digit)
        (.cat (chr '.') (.cat (plusG digit)
          (.cat (chr '.') (plusG digit)))))))))

/-- serialRe from parse_show_version.go. -/
def serialRe : RE :=
  .cat (strCI "Serial") (.cat (plusG ws) (.cat (strCI "Number")
    (.cat (.starG ws) (.cat (opt (chr ':'))
      (.cat (.starG ws) (.grp 1 (plusG (.cls isWordChar))))))))

/-- uptimeRe from parse_show_version.go: an uptime keyword, whitespace,
a lazily captured run, then optional whitespace at end of line. -/
def uptimeRe : RE :=
  .cat (.alt (strCI "Up") (strCI "uptime is"))
    (.cat (plusG ws) (.cat (.grp 1 (plusL dotC)) (.cat (.starG ws) .eol)))

/-- Embedding of ParseShowVersion (parse_show_version.go): split on
newlines, then per line probe each still-empty field in source order;
each field keeps its first match.  On a model match, when platform is
still empty and the model contains a space, platform becomes the first
field of the model. -/
def ParseShowVersion (output : String) :
    String × String × String × String × String :=
  (goSplit output '\n').foldl
    (fun acc line =>
      let (platform, osVersion, model, serial, uptime) := acc
      let (platform, model) :=
        if model = "" then
          match Re.find modelRe line with
          | some m =>
            let model' := goTrimSpace (m.group 1)
            let platform' :=
              if platform = "" ∧ goContains model' " " then
                match goFields model' with
                | p :: _ => p
                | [] => platform
              else platform
            (platform', model')
          | none => (platform, model)
        else (platform, model)
      let platform :=
        if platform = "" then
          match Re.find platformRe line with
          | some m => m.group 1
          | none => platform
        else platform
      let osVersion :=
        if osVersion = "" then
          match Re.find versionRe line with
          | some m => m.group 1
          | none => osVersion
        else osVersion
      let serial :=
        if serial = "" then
          match Re.find serialRe line with
          | some m => m.group 1
          | none => serial
        else serial
      let uptime :=
        if uptime = "" then
          match Re.find uptimeRe line with
          | some m => goTrimSpace (m.group 1)
          | none => uptime
        else uptime
      (platform, osVersion, model, serial, uptime))
    ("", "", "", "", "")

/-- Device from pkg/fdh/netdevice/genericaruba: the SSH client pointer
(none meaning nil) and the accumulated DeviceInfo. -/
structure Device where
  client : Option netssh.Client
  info : netmodel.DeviceInfo
deriving DecidableEq

/-- Embedding of genericaruba.NewDevice: parse the show version
output; fail when platform and model are both empty, otherwise build
the DeviceInfo with both timestamps set to now. -/
def NewDevice (client : Option netssh.Client) (now : Int)
    (showVersionOutput : String) : Except String Device :=
  let (platform, osVersion, model, serial, uptime) :=
    ParseShowVersion showVersionOutput
  if platform = "" ∧ model = "" then
    .error "failed to parse Aruba device information from show version"
  else
    .ok { client := client,
          info := { platform := platform, osVersion := osVersion, model := model,
                    serial := serial, uptime := uptime,
                    discoveredAt := now, lastUpdated := now } }

/-- GetHostname. -/
def GetHostname (d : Device) : String := d.info.hostname

/-- GetIPAddress. -/
def GetIPAddress (d : Device) : String := d.info.ipAddress

/-- GetPlatform. -/
def GetPlatform (d : Device) : String := d.info.platform

/-- GetOSVersion. -/
def GetOSVersion (d : Device) : String := d.info.osVersion

/-- GetModel. -/
def GetModel (d : Device) : String := d.info.model

/-- GetSerial. -/
def GetSerial (d : Device) : String := d.info.serial

/-- GetUptime. -/
def GetUptime (d : Device) : String := d.info.uptime

/-- GetDeviceInfo. -/
def GetDeviceInfo (d : Device) : netmodel.DeviceInfo := d.info

/-- SetIPAddress. -/
def SetIPAddress (d : Device) (ip : String) : Device :=
  { d with info := { d.info with ipAddress := ip } }

/-- IsConnected: the client pointer is non-nil. -/
def IsConnected (d : Device) : Bool := d.client.isSome

/-- Embedding of Device.GetConfig: requires a connected device, then
one ExecuteCommand of show running-config. -/
def GetConfig (d : Device) (fs : netmodel.FS) (now : Int)
    (env : netssh.ExecEnv) : Except String String × netmodel.FS :=
  match d.client with
  | none => (.error "device not connected", fs)
  | some c => netssh.ExecuteCommand c fs now env "show running-config" []

/-- The per-token body of parseVLANString: a trimmed token is either a
range a-b (expanded when both endpoints parse, dropped otherwise) or a
single integer (dropped when unparsable). -/
def vlanToken (part0 : String) : List Int :=
  let part := goTrimSpace part0
  if goContains part "-" then
    let rangeParts := goSplit part '-'
    if rangeParts.length = 2 then
      match goAtoi (goTrimSpace (rangeParts.get! 0)),
            goAtoi (goTrimSpace (rangeParts.get! 1)) with
      | some start, some stop =>
        (List.range (stop - start + 1).toNat).map (fun i => start + (i : Int))
      | _, _ => []
    else []
  else
    match goAtoi part with
    | some v => [v]
    | none => []

/-- Embedding of parseVLANString: split on commas and accumulate each
token's integers in encounter order; nothing ever fails. -/
def parseVLANString (vlanStr : String) : List Int :=
  (goSplit vlanStr ',').foldl (fun vlans part => vlans ++ vlanToken part) []

/-- interfaceRe from parseInterfaces: an interface or vlan keyword at
start of line, whitespace, then the captured name. -/
def interfaceRe : RE :=
  .cat .bol (.cat (.alt (str "interface") (str "vlan"))
    (.cat (plusG ws) (.grp 1 (plusG (.cls (fun c =>
      isWordChar c || c = '/' || c = '.' || c = '-'))))))

/-- The class of digits and dots. -/
def digitDot : RE := .cls (fun c => GoStr.isDigit c || c = '.')

/-- ipRe from parseInterfaces: indented ip address, the captured
address, then either a dotted mask (group 2) or a slash-suffix
(group 3). -/
def ipRe : RE :=
  .cat .bol (.cat (plusG ws) (.cat (str "ip address")
    (.cat (plusG ws) (.cat (.grp 1 (plusG digitDot))
      (.alt (.cat (plusG ws) (.grp 2 (plusG digitDot)))
            (.cat (chr '/') (.grp 3 (plusG digit))))))))

/-- descRe from parseInterfaces: indented name or description keyword,
whitespace, then the captured rest of line. -/
def descRe : RE :=
  .cat .bol (.cat (plusG ws) (.cat (.alt (str "name") (str "description"))
    (.cat (plusG ws) (.grp 1 (plusG dotC)))))

/-- vrfRe from parseInterfaces. -/
def vrfRe : RE :=
  .cat .bol (.cat (plusG ws)
    (.cat (.alt (str "vrf attach") (.alt (str "ip vrf forwarding") (str "vrf forwarding")))
      (.cat (plusG ws) (.grp 1 (plusG wordDash)))))

/-- vlanRe from parseInterfaces: indented tagged or untagged, the vlan
keyword, then the captured digits, commas and hyphens. -/
def vlanRe : RE :=
  .cat .bol (.cat (plusG ws) (.cat (.alt (str "tagged") (str "untagged"))
    (.cat (plusG ws) (.cat (str "vlan")
      (.cat (plusG ws) (.grp 1 (plusG (.cls (fun c =>
        GoStr.isDigit c || c = ',' || c = '-')))))))))

/-- Lines as bufio.Scanner with ScanLines yields them: split on
newline, drop one trailing carriage return per line, and no final
empty line when the text ends with a newline (or is empty). -/
def goScanLines (s : String) : List String :=
  let parts := goSplit s '\n'
  let parts :=
    match parts.getLast? with
    | some last => if last = "" then parts.dropLast else parts
    | none => parts
  parts.map (fun l =>
    if l.data.getLast? = some '\r' then String.mk l.data.dropLast else l)

/-- The state of the parseInterfaces line loop: flushed records and
the in-progress record. -/
structure IfaceAcc where
  records : List netmodel.Interface
  cur : Option netmodel.Interface
deriving DecidableEq

/-- One line of the parseInterfaces state machine: an interface/vlan
header flushes the open record and opens a new one; otherwise, with a
record open, the independent probes update it and a trimmed exit line
flushes it. -/
def stepInterfaces (st : IfaceAcc) (line : String) : IfaceAcc :=
  match Re.find interfaceRe line with
  | some m =>
    { records := st.records ++ st.cur.toList,
      cur := some { name := m.group 1 } }
  | none =>
    match st.cur with
    | none => st
    | some ci0 =>
      let ci1 :=
        match Re.find ipRe line with
        | some m =>
          let ci := { ci0 with ipAddress := m.group 1 }
          if m.group 2 ≠ "" then { ci with subnet := m.group 2 }
          else if m.group 3 ≠ "" then { ci with subnet := "/" ++ m.group 3 }
          else ci
        | none => ci0
      let ci2 :=
        match Re.find descRe line with
        | some m => { ci1 with description := goTrimSpace (m.group 1) }
        | none => ci1
      let ci3 :=
        match Re.find vrfRe line with
        | some m => { ci2 with vrf := goTrimSpace (m.group 1) }
        | none => ci2
      let ci4 :=
        match Re.find vlanRe line with
        | some m => { ci3 with vlans := ci3.vlans ++ parseVLANString (m.group 1) }
        | none => ci3
      if goTrimSpace line = "exit" then
        { records := st.records ++ [ci4], cur := none }
      else
        { st with cur := some ci4 }

/-- parseInterfaces on an explicit line list: fold the state machine
and flush any record still open at end of input. -/
def parseInterfacesLines (lines : List String) : List netmodel.Interface :=
  let st := lines.foldl stepInterfaces { records := [], cur := none }
  st.records ++ st.cur.toList

/-- Embedding of Device.parseInterfaces (credential-file bundle of
genericaruba): scan the configuration line by line. -/
def parseInterfaces (config : String) : List netmodel.Interface :=
  parseInterfacesLines (goScanLines config)

/-- localPortRe from parseNeighbors. -/
def localPortRe : RE :=
  .cat (.alt (strCI "LocalPort") (.alt (strCI "Local Port")
      (.cat .bol (.cat (.starG ws) (.cat (chr '|') (.starG ws))))))
    (.cat (.starG ws) (.cat (opt (.cls (fun c => c = ':' || c = '=')))
      (.cat (.starG ws) (.grp 1 (.alt (plusG digit)
        (plusG (.cls (fun c => isWordChar c || c = '/' || c = '.' || c = '-'))))))))

/-- tableEntryRe from parseNeighbors. -/
def tableEntryRe : RE :=
  .cat .bol (.cat (.starG ws) (.cat (chr '|') (.cat (.starG ws)
    (.cat (.grp 1 (plusG digit)) (.cat (.starG ws) (.cat (chr '|')
      (.cat (.starG ws)
        (.cat (.grp 2 (plusG (.cls (fun c =>
            isWordChar c || c = ':' || c = '.' || c = '-'))))
          (.cat (plusG ws) (.cat (.grp 3 (plusL dotC))
            (.alt (.cat (.starG ws) (chr '|'))
                  (.cat (.starG ws) .eol))))))))))))

/-- The common tail of the keyword probes in parseNeighbors: optional
whitespace, optional colon, optional whitespace, captured rest. -/
def kwTail (body : RE) : RE :=
  .cat (.starG ws) (.cat (opt (chr ':')) (.cat (.starG ws) (.grp 1 body)))

/-- remoteIntfRe from parseNeighbors. -/
def remoteIntfRe : RE :=
  .cat (.alt (strCI "Port Descr") (.alt (strCI "ChassisId")
      (.cat (strCI "Port") (.cat (.starG ws) (strCI "ID")))))
    (kwTail (plusG dotC))

/-- hostnameRe from parseNeighbors. -/
def hostnameRe : RE :=
  .cat (.alt (strCI "System Name") (strCI "SysName")) (kwTail (plusG dotC))

/-- capabilitiesRe from parseNeighbors. -/
def capabilitiesRe : RE :=
  .cat (.alt (strCI "System Capabilities") (strCI "Capabilities"))
    (kwTail (plusG dotC))

/-- The management-address probe from parseNeighbors. -/
def nbrIpRe : RE :=
  .cat (.alt (strCI "Management Address") (.alt (strCI "Mgmt Address") (strCI "Address")))
    (kwTail (plusG digitDot))

/-- The system-description probe from parseNeighbors. -/
def nbrPlatformRe : RE :=
  .cat (.alt (strCI "System Descr") (strCI "System Description"))
    (kwTail (plusG dotC))

/-- The state of the parseNeighbors line loop. -/
structure NbrAcc where
  records : List netmodel.Neighbor
  cur : Option netmodel.Neighbor
deriving DecidableEq

/-- One line of the parseNeighbors state machine, probing the trimmed
line: blank and separator lines are skipped; a table entry or a local
port marker flushes the open record and opens a new one; otherwise the
independent probes update the open record. -/
def stepNeighbors (st : NbrAcc) (raw : String) : NbrAcc :=
  let line := goTrimSpace raw
  if line = "" || hasPrefixGo line "---" || hasPrefixGo line "===" then st
  else
    match Re.find tableEntryRe line with
    | some m =>
      let nb0 : netmodel.Neighbor := { localInterface := m.group 1 }
      let nb :=
        if m.group 3 ≠ "" then
          match goFields (m.group 3) with
          | p :: _ => { nb0 with remoteHostname := p }
          | [] => nb0
        else nb0
      { records := st.records ++ st.cur.toList, cur := some nb }
    | none =>
      match Re.find localPortRe line with
      | some m =>
        { records := st.records ++ st.cur.toList,
          cur := some { localInterface := m.group 1 } }
      | none =>
        match st.cur with
        | none => st
        | some c0 =>
          let c1 :=
            match Re.find remoteIntfRe line with
            | some m => { c0 with remoteInterface := goTrimSpace (m.group 1) }
            | none => c0
          let c2 :=
            match Re.find hostnameRe line with
            | some m => { c1 with remoteHostname := goTrimSpace (m.group 1) }
            | none => c1
          let c3 :=
            match Re.find capabilitiesRe line with
            | some m => { c2 with capabilities := goTrimSpace (m.group 1) }
            | none => c2
          let c4 :=
            match Re.find nbrIpRe line with
            | some m => { c3 with ipAddress := m.group 1 }
            | none => c3
          let c5 :=
            match Re.find nbrPlatformRe line with
            | some m => { c4 with platform := goTrimSpace (m.group 1) }
            | none => c4
          { st with cur := some c5 }

/-- Embedding of Device.parseNeighbors: scan the LLDP detail output
line by line, flushing the final open record at end of input. -/
def parseNeighbors (output : String) : List netmodel.Neighbor :=
  let st := (goScanLines output).foldl stepNeighbors { records := [], cur := none }
  st.records ++ st.cur.toList

/-- Embedding of Device.GetInterfaces: fetch the configuration, parse
it, store the interfaces and bump the last-updated time. -/
def GetInterfaces (d : Device) (fs : netmodel.FS) (now : Int)
    (env : netssh.ExecEnv) :
    Except String (List netmodel.Interface) × Device × netmodel.FS :=
  if !(IsConnected d) then (.error "device not connected", d, fs)
  else
    match GetConfig d fs now env with
    | (.error e, fs') => (.error e, d, fs')
    | (.ok config, fs') =>
      let ifs := parseInterfaces config
      (.ok ifs,
       { d with info := { d.info with interfaces := ifs, lastUpdated := now } },
       fs')

/-- Embedding of Device.GetNeighbors: run the LLDP detail command,
parse it, store the neighbors and bump the last-updated time. -/
def GetNeighbors (d : Device) (fs : netmodel.FS) (now : Int)
    (env : netssh.ExecEnv) :
    Except String (List netmodel.Neighbor) × Device × netmodel.FS :=
  if !(IsConnected d) then (.error "device not connected", d, fs)
  else
    match d.client with
    | none => (.error "device not connected", d, fs)
    | some c =>
      match netssh.ExecuteCommand c fs now env "show lldp neighbors detail" [] with
      | (.error e, fs') => (.error e, d, fs')
      | (.ok output, fs') =>
        let nbrs := parseNeighbors output
        (.ok nbrs,
         { d with info := { d.info with neighbors := nbrs, lastUpdated := now } },
         fs')

end genericaruba

namespace netdevice

/-- DeviceType from pkg/fdh/netdevice/factory.go: the closed
enumeration of recognized device families. -/
inductive DeviceType where
  | GenericAruba
  | GenericCiscoIOS
  | GenericCiscoNXOS
  | GenericJuniperJunOS
  | GenericAristaEOS
  | DeviceTypeUnknown
deriving DecidableEq

/-- The Go string value of each DeviceType constant. -/
def DeviceType.str : DeviceType → String
  | .GenericAruba => "generic_aruba"
  | .GenericCiscoIOS => "generic_cisco_ios"
  | .GenericCiscoNXOS => "generic_cisco_nxos"
  | .GenericJuniperJunOS => "generic_juniper_junos"
  | .GenericAristaEOS => "generic_arista_eos"
  | .DeviceTypeUnknown => "unknown"

open GoStr in
/-- Embedding of DetectDeviceType (factory.go): lower-case the show
version output, then test vendor markers family by family in source
order. -/
def DetectDeviceType (showVersionOutput : String) : DeviceType :=
  let output := goToLower showVersionOutput
  if goContains output "procurve" || goContains output "aruba" ||
     goContains output "hp j" || goContains output "hp k" then
    .GenericAruba
  else if goContains output "cisco ios" || goContains output "cisco internetwork" then
    .GenericCiscoIOS
  else if goContains output "cisco nx-os" || goContains output "nexus" then
    .GenericCiscoNXOS
  else if goContains output "junos" || goContains output "juniper" then
    .GenericJuniperJunOS
  else if goContains output "arista" || goContains output "eos" then
    .GenericAristaEOS
  else
    .DeviceTypeUnknown

/-- The marker table as the specification words it: for each family in
priority order, the case-insensitive substring markers. -/
def markerTable : List (List String × DeviceType) :=
  [ (["procurve", "aruba", "hp j", "hp k"], .GenericAruba),
    (["cisco ios", "cisco internetwork"], .GenericCiscoIOS),
    (["cisco nx-os", "nexus"], .GenericCiscoNXOS),
    (["junos", "juniper"], .GenericJuniperJunOS),
    (["arista", "eos"], .GenericAristaEOS) ]

open GoStr in
/-- First-match-wins lookup over a marker table. -/
def detectFromTable (tbl : List (List String × DeviceType)) (s : String) : DeviceType :=
  tbl.foldr
    (fun p acc => if p.1.any (fun m => goContains (goToLower s) m) then p.2 else acc)
    .DeviceTypeUnknown

/-- Modelled from the spec: the first family in priority order one of
whose markers occurs in the lower-cased text, else unknown. -/
def specDetect (s : String) : DeviceType :=
  detectFromTable markerTable s

/-- Embedding of netdevice.NewDevice (factory.go): detect the device
type; only the Aruba family has a constructor, every other detected
type (the other four families and unknown) falls to the default branch
and fails. -/
def NewDevice (sshClient : Option netssh.Client) (now : Int)
    (showVersionOutput : String) : Except String genericaruba.Device :=
  let deviceType := DetectDeviceType showVersionOutput
  match deviceType with
  | .GenericAruba =>
    match genericaruba.NewDevice sshClient now showVersionOutput with
    | .error e => .error ("failed to create Aruba device: " ++ e)
    | .ok device => .ok device
  | dt => .error ("unsupported device type: " ++ dt.str ++ " (detected from show version)")

end netdevice

namespace netcrawl

/-- The structured events DiscoverDevice sends to the event sink
(cmd/netcrawl/netcrawl events). -/
inductive Event where
  | discoveryStarted (ip : String) (port : Int) (username : String)
  | showVersionRetrieved (ip : String) (outputLength : Nat) (savedTo : String)
  | deviceDetected (ip platform os model serial uptime : String)
  | configurationRetrieved (ip : String) (success : Bool) (error savedTo : String)
  | interfacesRetrieved (ip : String) (count : Nat) (error : String)
  | neighborsRetrieved (ip : String) (count : Nat) (error : String)
  | deviceSaved (ip dbPath filename : String)
  | discoveryCompleted (ip : String) (port : Int) (success : Bool)
      (errorMsg : String) (duration : Int)
deriving DecidableEq

/-- The observable state a discovery run accumulates: emitted events,
raw-output files written, the command cache filesystem, and the device
records written to the JSON store. -/
structure DiscState where
  events : List Event
  files : List (String × String)
  cacheFs : netmodel.FS
  records : List (String × netmodel.DeviceInfo)
deriving DecidableEq

/-- What the world answers during one discovery run: the credential
lookup, the SSH behavior per command, and the success of each
filesystem and database operation. -/
structure DiscEnv where
  creds : Except credmgr.CredError credmgr.UserCred
  exec : String → netssh.ExecEnv
  mkdirErr : Option String := none
  writeVerErr : Option String := none
  writeCfgErr : Option String := none
  dbOpenErr : Option String := none
  dbWriteErr : Option String := none
  now : Int := 0
  networkDir : String := ""
  dataDir : String := ""

/-- Appending one event to the sink (fire-and-forget Send). -/
def send (st : DiscState) (e : Event) : DiscState :=
  { st with events := st.events ++ [e] }

/-- Recording one raw-output file write. -/
def writeRaw (st : DiscState) (p c : String) : DiscState :=
  { st with files := st.files ++ [(p, c)] }

/-- Embedding of DiscoverDevice (discoverDevice.go), transcribed step
by step: load credentials (not-found is a clean exit), emit the start
event, build the SSH client, run show version, save the raw output,
construct the vendor adapter, fetch configuration (non-fatal),
interfaces and neighbors (each non-fatal), then persist the record.
The returned state carries everything the run changed. -/
def DiscoverDevice (env : DiscEnv) (deviceIP : String) (port : Int)
    (timeout : Int) (st : DiscState) : Except String Unit × DiscState :=
  match env.creds with
  | .error .errNotFound =>
    (.ok (), send st (.discoveryCompleted deviceIP port false "No SSH credentials found" 0))
  | .error (.err m) => (.error ("loading ssh creds: " ++ m), st)
  | .ok cred =>
    let st := send st (.discoveryStarted deviceIP port cred.username)
    let client := netssh.NewClient
      { host := deviceIP, port := port, credentials := cred,
        timeout := timeout, cacheConfig := none }
    match netssh.ExecuteCommand client st.cacheFs env.now
        (env.exec "show version") "show version" [] with
    | (.error e, fs1) =>
      (.error ("executing show version: " ++ e), { st with cacheFs := fs1 })
    | (.ok showVersionOutput, fs1) =>
      let st := { st with cacheFs := fs1 }
      let deviceDir := env.networkDir ++ "/" ++ deviceIP
      match env.mkdirErr with
      | some e => (.error ("failed to create device directory: " ++ e), st)
      | none =>
        let showVerFile := deviceDir ++ "/show_version.txt"
        match env.writeVerErr with
        | some e => (.error ("failed to save show version output: " ++ e), st)
        | none =>
          let st := writeRaw st showVerFile showVersionOutput
          let st := send st
            (.showVersionRetrieved deviceIP showVersionOutput.length showVerFile)
          match netdevice.NewDevice (some client) env.now showVersionOutput with
          | .error e => (.error ("failed to create device: " ++ e), st)
          | .ok device0 =>
            let device := genericaruba.SetIPAddress device0 deviceIP
            let st := send st (.deviceDetected deviceIP
              (genericaruba.GetPlatform device) (genericaruba.GetOSVersion device)
              (genericaruba.GetModel device) (genericaruba.GetSerial device)
              (genericaruba.GetUptime device))
            let (cfgRes, fs2) := genericaruba.GetConfig device st.cacheFs env.now
              (env.exec "show running-config")
            let st := { st with cacheFs := fs2 }
            let afterCfg : Except String DiscState :=
              match cfgRes with
              | .error e =>
                .ok (send st (.configurationRetrieved deviceIP false e ""))
              | .ok config =>
                let configFile := deviceDir ++ "/show_running_config.txt"
                match env.writeCfgErr with
                | some e => .error ("failed to save config: " ++ e)
                | none =>
                  .ok (send (writeRaw st configFile config)
                    (.configurationRetrieved deviceIP true "" configFile))
            match afterCfg with
            | .error e => (.error e, st)
            | .ok st =>
              let (ifsRes, device, fs3) := genericaruba.GetInterfaces device
                st.cacheFs env.now (env.exec "show running-config")
              let st := { st with cacheFs := fs3 }
              let st :=
                match ifsRes with
                | .error e => send st (.interfacesRetrieved deviceIP 0 e)
                | .ok ifs => send st (.interfacesRetrieved deviceIP ifs.length "")
              let (nbrRes, device, fs4) := genericaruba.GetNeighbors device
                st.cacheFs env.now (env.exec "show lldp neighbors detail")
              let st := { st with cacheFs := fs4 }
              let st :=
                match nbrRes with
                | .error e => send st (.neighborsRetrieved deviceIP 0 e)
                | .ok nbrs => send st (.neighborsRetrieved deviceIP nbrs.length "")
              let deviceInfo :=
                { genericaruba.GetDeviceInfo device with rawOutputDir := deviceDir }
              let dbPath := env.dataDir ++ "/devices"
              match env.dbOpenErr with
              | some e => (.error ("failed to open database: " ++ e), st)
              | none =>
                let deviceFile := deviceIP ++ ".json"
                match env.dbWriteErr with
                | some e => (.error ("failed to save device to database: " ++ e), st)
                | none =>
                  let st := { st with records := st.records ++ [(deviceFile, deviceInfo)] }
                  let st := send st (.deviceSaved deviceIP dbPath deviceFile)
                  let st := send st (.discoveryCompleted deviceIP port true "" 0)
                  (.ok (), st)

end netcrawl

/-- Decidable equality for Except, used to evaluate embedded results
at concrete inputs. -/
instance {α β : Type} [DecidableEq α] [DecidableEq β] : DecidableEq (Except α β) :=
  fun x y =>
    match x, y with
    | .error a, .error b =>
      if h : a = b then .isTrue (by rw [h]) else .isFalse (by simp [h])
    | .ok a, .ok b =>
      if h : a = b then .isTrue (by rw [h]) else .isFalse (by simp [h])
    | .error _, .ok _ => .isFalse (by simp)
    | .ok _, .error _ => .isFalse (by simp)

/-! ## Supporting lemmas -/

theorem splitChar_ne_nil (sep : Char) (l : List Char) : GoStr.splitChar sep l ≠ [] := by
  cases l with
  | nil => simp [GoStr.splitChar]
  | cons c cs =>
    simp only [GoStr.splitChar]
    split
    · simp
    · split <;> simp

theorem splitChar_append (sep : Char) (l₁ l₂ : List Char) :
    GoStr.splitChar sep (l₁ ++ sep :: l₂) =
      GoStr.splitChar sep l₁ ++ GoStr.splitChar sep l₂ := by
  induction l₁ with
  | nil => simp [GoStr.splitChar]
  | cons c cs ih =>
    by_cases h : c = sep
    · simp [GoStr.splitChar, h, ih]
    · simp only [List.cons_append, GoStr.splitChar, if_neg h]
      cases hcs : GoStr.splitChar sep cs with
      | nil => exact absurd hcs (splitChar_ne_nil sep cs)
      | cons a t => simp only [List.append_eq]; rw [ih, hcs]; simp

theorem string_length_zero_iff (s : String) : s.length = 0 ↔ s = "" := by
  constructor
  · intro h
    cases s with
    | mk l =>
      have : l = [] := List.length_eq_zero.mp h
      simp [this]
  · intro h
    rw [h]
    rfl

theorem foldl_vlan_factor (l : List String) (a : List Int) :
    l.foldl (fun v p => v ++ genericaruba.vlanToken p) a =
      a ++ l.foldl (fun v p => v ++ genericaruba.vlanToken p) [] := by
  induction l generalizing a with
  | nil => simp
  | cons p ps ih =>
    simp only [List.foldl_cons, List.nil_append]
    rw [ih (a ++ genericaruba.vlanToken p), ih (genericaruba.vlanToken p),
      List.append_assoc]

theorem detectFromTable_eq_unknown_iff
    (tbl : List (List String × netdevice.DeviceType)) (s : String)
    (h : ∀ p ∈ tbl, p.2 ≠ .DeviceTypeUnknown) :
    netdevice.detectFromTable tbl s = .DeviceTypeUnknown ↔
      ∀ p ∈ tbl, ∀ m ∈ p.1, GoStr.goContains (GoStr.goToLower s) m = false := by
  induction tbl with
  | nil => simp [netdevice.detectFromTable]
  | cons q rest ih =>
    simp only [netdevice.detectFromTable, List.foldr_cons] at *
    by_cases hq : q.1.any (fun m => GoStr.goContains (GoStr.goToLower s) m) = true
    · rw [if_pos hq]
      obtain ⟨m, hm, hmt⟩ := List.any_eq_true.mp hq
      constructor
      · intro hqt
        exact absurd hqt (h q (List.mem_cons_self q rest))
      · intro hall
        exact absurd hmt (by simp [hall q (List.mem_cons_self q rest) m hm])
    · rw [if_neg hq]
      have hrest := ih (fun p hp => h p (List.mem_cons_of_mem q hp))
      rw [hrest]
      constructor
      · intro hall p hp m hm
        rcases List.mem_cons.mp hp with rfl | hp'
        · by_contra hne
          exact hq (List.any_eq_true.mpr ⟨m, hm, by simpa using hne⟩)
        · exact hall p hp' m hm
      · intro hall p hp m hm
        exact hall p (List.mem_cons_of_mem q hp) m hm

theorem stepInterfaces_exit (st : genericaruba.IfaceAcc) :
    genericaruba.stepInterfaces st "exit" =
      (match st.cur with
       | none => st
       | some ci => { records := st.records ++ [ci], cur := none }) := by
  have h1 : Re.find genericaruba.interfaceRe "exit" = none := by decide
  have h2 : Re.find genericaruba.ipRe "exit" = none := by decide
  have h3 : Re.find genericaruba.descRe "exit" = none := by decide
  have h4 : Re.find genericaruba.vrfRe "exit" = none := by decide
  have h5 : Re.find genericaruba.vlanRe "exit" = none := by decide
  have h6 : GoStr.goTrimSpace "exit" = "exit" := by decide
  unfold genericaruba.stepInterfaces
  rw [h1]
  cases st.cur with
  | none => rfl
  | some ci => rw [h2, h3, h4, h5, h6]; simp

theorem parseInterfacesLines_append_exit (ls : List String) :
    genericaruba.parseInterfacesLines (ls ++ ["exit"]) =
      genericaruba.parseInterfacesLines ls := by
  unfold genericaruba.parseInterfacesLines
  rw [List.foldl_append]
  simp only [List.foldl_cons, List.foldl_nil]
  rw [stepInterfaces_exit]
  cases h : (ls.foldl genericaruba.stepInterfaces { records := [], cur := none }).cur <;>
    simp [h]

/-! ## Claim theorems -/

/-- C5: DetectDeviceType is a total deterministic function into the
closed six-value enumeration: it equals the first-match-wins
case-insensitive substring lookup over the fixed priority-ordered
marker table (aruba first, then cisco-ios, cisco-nxos, juniper-junos,
arista-eos), and it yields unknown exactly when no marker occurs in
the lower-cased input. -/
theorem C5_detect_priority_total (s : String) :
    netdevice.DetectDeviceType s = netdevice.specDetect s ∧
    (netdevice.DetectDeviceType s = .DeviceTypeUnknown ↔
      ∀ p ∈ netdevice.markerTable, ∀ m ∈ p.1,
        GoStr.goContains (GoStr.goToLower s) m = false) := by
  have heq : netdevice.DetectDeviceType s = netdevice.specDetect s := by
    simp only [netdevice.DetectDeviceType, netdevice.specDetect,
      netdevice.detectFromTable, netdevice.markerTable, List.foldr_cons,
      List.foldr_nil, List.any_cons, List.any_nil, Bool.or_false, Bool.or_assoc]
  refine ⟨heq, ?_⟩
  rw [heq]
  exact detectFromTable_eq_unknown_iff netdevice.markerTable s (by decide)

/-- Witness for C5 at a concrete ambiguous input: text containing both
an Aruba marker and a Cisco IOS marker resolves to the Aruba family,
the first family in priority order. -/
theorem C5_detect_priority_total_witness :
    netdevice.DetectDeviceType "Aruba JL255A running cisco ios text" =
      netdevice.specDetect "Aruba JL255A running cisco ios text" ∧
    netdevice.DetectDeviceType "Aruba JL255A running cisco ios text" =
      .GenericAruba := by
  refine ⟨(C5_detect_priority_total _).1, ?_⟩
  decide

/-- C6: for identification text that the detector classifies as
unknown, the device factory returns the unsupported-device error and
no adapter object. -/
theorem C6_unknown_rejected (c : Option netssh.Client) (now : Int) (s : String)
    (h : netdevice.DetectDeviceType s = .DeviceTypeUnknown) :
    netdevice.NewDevice c now s =
      .error "unsupported device type: unknown (detected from show version)" := by
  unfold netdevice.NewDevice
  rw [h]
  rfl

/-- Witness for C6: the text "hello world" contains no vendor marker,
and the factory rejects it. -/
theorem C6_unknown_rejected_witness :
    netdevice.DetectDeviceType "hello world" = .DeviceTypeUnknown ∧
    netdevice.NewDevice none 0 "hello world" =
      .error "unsupported device type: unknown (detected from show version)" :=
  ⟨by decide, C6_unknown_rejected none 0 "hello world" (by decide)⟩

/-- C10: a recognized non-Aruba family (cisco-ios, cisco-nxos,
juniper-junos, arista-eos) is rejected by NewDevice with the
unsupported-device-type error naming the detected type, and only an
aruba-family detection can ever produce a constructed adapter. -/
theorem C10_only_aruba_constructed (c : Option netssh.Client) (now : Int) (s : String) :
    (netdevice.DetectDeviceType s ∈
        [netdevice.DeviceType.GenericCiscoIOS, netdevice.DeviceType.GenericCiscoNXOS,
         netdevice.DeviceType.GenericJuniperJunOS, netdevice.DeviceType.GenericAristaEOS] →
      netdevice.NewDevice c now s =
        .error ("unsupported device type: " ++ (netdevice.DetectDeviceType s).str ++
          " (detected from show version)")) ∧
    (∀ d, netdevice.NewDevice c now s = .ok d →
      netdevice.DetectDeviceType s = .GenericAruba) := by
  unfold netdevice.NewDevice
  cases h : netdevice.DetectDeviceType s with
  | GenericAruba =>
    refine ⟨by intro hmem; simp at hmem, fun d _ => rfl⟩
  | GenericCiscoIOS => exact ⟨fun _ => rfl, fun d hd => by simp at hd⟩
  | GenericCiscoNXOS => exact ⟨fun _ => rfl, fun d hd => by simp at hd⟩
  | GenericJuniperJunOS => exact ⟨fun _ => rfl, fun d hd => by simp at hd⟩
  | GenericAristaEOS => exact ⟨fun _ => rfl, fun d hd => by simp at hd⟩
  | DeviceTypeUnknown => exact ⟨by intro hmem; simp at hmem, fun d hd => by simp at hd⟩

/-- Witness for C10: text with a Cisco IOS marker is detected as the
cisco-ios family and rejected with the unsupported-device-type
error. -/
theorem C10_only_aruba_constructed_witness :
    netdevice.DetectDeviceType "Cisco IOS Software, Version 15.2" =
      .GenericCiscoIOS ∧
    netdevice.NewDevice none 0 "Cisco IOS Software, Version 15.2" =
      .error "unsupported device type: generic_cisco_ios (detected from show version)" := by
  have hdet : netdevice.DetectDeviceType "Cisco IOS Software, Version 15.2" =
      .GenericCiscoIOS := by decide
  refine ⟨hdet, ?_⟩
  have h := (C10_only_aruba_constructed none 0 "Cisco IOS Software, Version 15.2").1
    (by rw [hdet]; simp)
  rw [h, hdet]
  rfl

/-- C7: VLAN list parsing: the input 10,12-14 yields exactly 10, 12,
13, 14 in encounter order; the malformed range token 12- contributes
nothing while the other comma-separated tokens still parse; and
parsing is total and per-token (it distributes over commas), so it
never aborts the rest of the list. -/
theorem C7_vlan_parsing :
    genericaruba.parseVLANString "10,12-14" = [10, 12, 13, 14] ∧
    genericaruba.parseVLANString "10,12-,15" = [10, 15] ∧
    genericaruba.vlanToken "12-" = [] ∧
    ∀ s t : String,
      genericaruba.parseVLANString (s ++ "," ++ t) =
        genericaruba.parseVLANString s ++ genericaruba.parseVLANString t := by
  refine ⟨by decide, by decide, by decide, ?_⟩
  intro s t
  unfold genericaruba.parseVLANString GoStr.goSplit
  have hd : (s ++ "," ++ t).data = s.data ++ ',' :: t.data := by
    rw [String.data_append, String.data_append, List.append_assoc]
    rfl
  rw [hd, splitChar_append, List.map_append, List.foldl_append,
    foldl_vlan_factor]

/-- C8: a configuration with exactly two interface blocks, each
terminated by an exit line, parses to exactly two Interface records in
source order, each carrying its block's name, description and expanded
VLAN list; and in general a record still open at end of input is
flushed exactly once — appending an explicit exit terminator to any
line list changes nothing. -/
theorem C8_interface_blocks :
    genericaruba.parseInterfaces
        "interface 1/1/1\n description uplink-to-core\n tagged vlan 10,12-14\nexit\nvlan 20\n name mgmt-vlan\n untagged vlan 20\nexit\n" =
      [{ name := "1/1/1", description := "uplink-to-core", vlans := [10, 12, 13, 14] },
       { name := "20", description := "mgmt-vlan", vlans := [20] }] ∧
    ∀ ls : List String,
      genericaruba.parseInterfacesLines (ls ++ ["exit"]) =
        genericaruba.parseInterfacesLines ls :=
  ⟨by decide, parseInterfacesLines_append_exit⟩

/-- C2 counterexample: the identification text consisting of four
digits, a tab and a word parses to an empty platform but a non-empty
model, and genericaruba.NewDevice succeeds, returning a DeviceInfo
whose platform field is empty — refuting the claim that construction
fails whenever platform is empty. -/
theorem C2_counterexample_empty_platform :
    (genericaruba.NewDevice none 0 "1234\tswitch").toOption.map
      (fun d => d.info.platform) = some "" := by
  decide

/-- C2 amended: construction fails exactly when the parsed platform
and model are both empty; otherwise it succeeds and populates the
DeviceInfo atomically from the parse (so platform alone may still be
empty when the model is not). -/
theorem C2_construction_contract (client : Option netssh.Client) (now : Int)
    (out p o m sn up : String)
    (h : genericaruba.ParseShowVersion out = (p, o, m, sn, up)) :
    (p = "" ∧ m = "" →
      genericaruba.NewDevice client now out =
        .error "failed to parse Aruba device information from show version") ∧
    (¬(p = "" ∧ m = "") →
      genericaruba.NewDevice client now out =
        .ok { client := client,
              info := { platform := p, osVersion := o, model := m, serial := sn,
                        uptime := up, discoveredAt := now, lastUpdated := now } }) := by
  unfold genericaruba.NewDevice
  rw [h]
  dsimp only
  refine ⟨fun hpm => ?_, fun hpm => ?_⟩
  · rw [if_pos hpm]
  · rw [if_neg hpm]

/-- Witness for C2 amended: the counterexample input has empty
platform and non-empty model, so construction succeeds with the
parsed fields. -/
theorem C2_construction_contract_witness :
    genericaruba.NewDevice none 0 "1234\tswitch" =
      .ok { client := none,
            info := { platform := "", osVersion := "", model := "1234\tswitch",
                      serial := "", uptime := "", discoveredAt := 0,
                      lastUpdated := 0 } } := by
  have h : genericaruba.ParseShowVersion "1234\tswitch" =
      ("", "", "1234\tswitch", "", "") := by decide
  exact (C2_construction_contract none 0 "1234\tswitch" "" "" "1234\tswitch" "" "" h).2
    (by decide)

/-- C3: on an established session whose setup steps succeeded and
whose drain finished in time, an error from session completion is
surfaced exactly when zero stdout bytes were captured; with any stdout
captured the completion error is ignored and the captured output
(stderr appended after a newline when present) is returned as
success. -/
theorem C3_wait_error_needs_empty_stdout (env : netssh.ExecEnv) (cmd : String)
    (opts : netssh.ExecOptions) (w : String)
    (hses : env.newSessionErr = none) (hpty : env.ptyErr = none)
    (hop : env.stdoutPipeErr = none) (hep : env.stderrPipeErr = none)
    (hst : env.startErr = none) (hro : env.readStdoutErr = none)
    (hre : env.readStderrErr = none) (hto : env.timedOut = false)
    (hw : env.waitErr = some w) :
    (env.stdoutBytes = "" →
      netssh.executeCommandInternal env cmd opts =
        .error ("command failed: " ++ w ++ " (stderr: " ++ env.stderrBytes ++ ")")) ∧
    (env.stdoutBytes ≠ "" →
      netssh.executeCommandInternal env cmd opts =
        .ok (env.stdoutBytes ++
          if env.stderrBytes.length > 0 then "\n" ++ env.stderrBytes else "")) := by
  unfold netssh.executeCommandInternal
  rw [hses, hpty, hop, hep, hst, hro, hre, hto, hw]
  refine ⟨fun hs => ?_, fun hs => ?_⟩
  · have hl : env.stdoutBytes.length = 0 := (string_length_zero_iff _).mpr hs
    dsimp only
    rw [if_neg (by decide : ¬ (false = true)), if_pos hl]
  · have hl : ¬ env.stdoutBytes.length = 0 :=
      fun hz => hs ((string_length_zero_iff _).mp hz)
    dsimp only
    rw [if_neg (by decide : ¬ (false = true)), if_neg hl]

/-- Witness for C3: a completed command with non-zero exit (wait
error), captured stdout and empty stderr returns the stdout as
success. -/
theorem C3_wait_error_needs_empty_stdout_witness :
    netssh.executeCommandInternal
      { stdoutBytes := "Image stamp 123", waitErr := some "Process exited with status 1" }
      "show version" { noCache := false, timeout := 30000000000 } =
      .ok "Image stamp 123" := by
  have h := (C3_wait_error_needs_empty_stdout
    { stdoutBytes := "Image stamp 123", waitErr := some "Process exited with status 1" }
    "show version" { noCache := false, timeout := 30000000000 }
    "Process exited with status 1" rfl rfl rfl rfl rfl rfl rfl rfl rfl).2 (by decide)
  rw [h]
  rfl

/-- C9: with caching enabled and a non-negative TTL, SaveOutput
followed immediately by GetCachedOutput for the same device and
command returns the saved bytes verbatim with found true. -/
theorem C9_cache_roundtrip (cfg : netmodel.CacheConfig) (fs : netmodel.FS)
    (now : Int) (deviceIP command output : String)
    (hen : cfg.enabled = true) (httl : 0 ≤ cfg.ttl) :
    netmodel.GetCachedOutput cfg
        (netmodel.SaveOutput cfg fs now deviceIP command output)
        now deviceIP command = (output, true) := by
  have hsave : netmodel.SaveOutput cfg fs now deviceIP command output =
      netmodel.fsWrite fs (netmodel.getCacheFilePath cfg deviceIP command) output now := by
    unfold netmodel.SaveOutput
    rw [hen, if_neg (by decide : ¬ ((!true) = true))]
  rw [hsave]
  unfold netmodel.GetCachedOutput
  rw [hen, if_neg (by decide : ¬ ((!true) = true))]
  generalize netmodel.getCacheFilePath cfg deviceIP command = path
  dsimp only
  rw [show netmodel.fsStat (netmodel.fsWrite fs path output now) path = some now from by
    simp [netmodel.fsStat, netmodel.fsWrite]]
  dsimp only
  rw [if_neg (by omega : ¬ now - now > cfg.ttl)]
  rw [show netmodel.fsRead (netmodel.fsWrite fs path output now) path = some output from by
    simp [netmodel.fsRead, netmodel.fsWrite]]

/-- Witness for C9 at a concrete key: save then load of one command
output on an empty filesystem with the default-style enabled config
returns the bytes and found true. -/
theorem C9_cache_roundtrip_witness :
    netmodel.GetCachedOutput { enabled := true, ttl := 300000000000, baseDir := "" }
        (netmodel.SaveOutput { enabled := true, ttl := 300000000000, baseDir := "" }
          [] 7 "10.0.0.1" "show version" "HP J9624A")
        7 "10.0.0.1" "show version" = ("HP J9624A", true) :=
  C9_cache_roundtrip { enabled := true, ttl := 300000000000, baseDir := "" }
    [] 7 "10.0.0.1" "show version" "HP J9624A" rfl (by decide)

/-- C4: on an established connection, when the cache does not answer
and the session setup succeeded but the drain-and-wait lost the race
against the timeout, ExecuteCommand returns the timeout error naming
the configured duration, and the cache filesystem is unchanged — the
cache write happens only on success. -/
theorem C4_timeout_error_no_cache_write (c : netssh.Client) (fs : netmodel.FS)
    (now : Int) (env : netssh.ExecEnv) (cmd : String)
    (opts : List (netssh.ExecOptions → netssh.ExecOptions))
    (hconn : c.conn = some ())
    (hmiss : (netssh.parseOptions opts).noCache = false →
      (netmodel.GetCachedOutput c.cache fs now c.host cmd).2 = false)
    (hses : env.newSessionErr = none) (hpty : env.ptyErr = none)
    (hop : env.stdoutPipeErr = none) (hep : env.stderrPipeErr = none)
    (hst : env.startErr = none)
    (hto : env.timedOut = true) :
    netssh.ExecuteCommand c fs now env cmd opts =
      (.error ("command execution timed out after " ++
        GoTime.durationString (netssh.parseOptions opts).timeout), fs) := by
  have hint : netssh.executeCommandInternal env cmd (netssh.parseOptions opts) =
      .error ("command execution timed out after " ++
        GoTime.durationString (netssh.parseOptions opts).timeout) := by
    unfold netssh.executeCommandInternal
    rw [hses, hpty, hop, hep, hst, hto]
    dsimp only
    rw [if_pos rfl]
  unfold netssh.ExecuteCommand
  rw [hconn]
  dsimp only
  rw [if_neg ?hcond]
  case hcond =>
    rintro ⟨h1, h2⟩
    cases hnc : (netssh.parseOptions opts).noCache with
    | true => rw [hnc] at h1; exact absurd h1 (by decide)
    | false => rw [hmiss hnc] at h2; exact absurd h2 (by decide)
  rw [hint]

/-- Witness for C4: a connected client with an empty cache and a
timed-out drain yields the timeout error naming the default 30 s
timeout, and the filesystem stays empty. -/
theorem C4_timeout_error_no_cache_write_witness :
    netssh.ExecuteCommand
      { user := "admin", password := "pw", dialTimeout := 30000000000,
        conn := some (), host := "10.0.0.1", port := 22,
        cache := netmodel.DefaultCacheConfig }
      [] 0 { timedOut := true } "show version" [] =
      (.error "command execution timed out after 30s", []) := by
  have h := C4_timeout_error_no_cache_write
    { user := "admin", password := "pw", dialTimeout := 30000000000,
      conn := some (), host := "10.0.0.1", port := 22,
      cache := netmodel.DefaultCacheConfig }
    [] 0 { timedOut := true } "show version" []
    rfl (fun _ => by decide) rfl rfl rfl rfl rfl rfl
  rw [h]
  rfl

/-- C1: the orchestrator never establishes the transport connection:
whenever credentials load successfully, DiscoverDevice builds the
client and immediately runs the identification command without calling
Connect, so every run fails with the not-connected error from
ExecuteCommand — no device record and no raw-output file is ever
written.  (The specification's step 2, connect before identification
with only a dial failure fatal, does not happen in this code.) -/
theorem C1_discover_never_connects (env : netcrawl.DiscEnv) (deviceIP : String)
    (port timeout : Int) (st : netcrawl.DiscState) (cred : credmgr.UserCred)
    (hcred : env.creds = .ok cred) :
    (netcrawl.DiscoverDevice env deviceIP port timeout st).1 =
      .error "executing show version: not connected - call Connect() first" ∧
    (netcrawl.DiscoverDevice env deviceIP port timeout st).2.records = st.records ∧
    (netcrawl.DiscoverDevice env deviceIP port timeout st).2.files = st.files := by
  unfold netcrawl.DiscoverDevice
  rw [hcred]
  dsimp only
  rw [show netssh.NewClient
      { host := deviceIP, port := port, credentials := cred,
        timeout := timeout, cacheConfig := none } =
      { user := cred.username, password := cred.password,
        dialTimeout := if timeout = 0 then 30 * 1000000000 else timeout,
        conn := none, host := deviceIP,
        port := if port = 0 then 22 else port,
        cache := netmodel.DefaultCacheConfig } from rfl]
  rw [show ∀ fsx nowx envx cmdx,
      netssh.ExecuteCommand
        { user := cred.username, password := cred.password,
          dialTimeout := if timeout = 0 then 30 * 1000000000 else timeout,
          conn := none, host := deviceIP,
          port := if port = 0 then 22 else port,
          cache := netmodel.DefaultCacheConfig } fsx nowx envx cmdx [] =
        (.error "not connected - call Connect() first", fsx) from
    fun fsx nowx envx cmdx => rfl]
  exact ⟨rfl, rfl, rfl⟩

/-- Witness for C1: a concrete run with credentials present, a
reachable device answering every command, and an empty starting state
still aborts with the not-connected error. -/
theorem C1_discover_never_connects_witness :
    (netcrawl.DiscoverDevice
        { creds := .ok { username := "admin", password := "pw" },
          exec := fun _ => { stdoutBytes := "HP J9624A ProCurve" } }
        "10.0.0.1" 22 30000000000
        { events := [], files := [], cacheFs := [], records := [] }).1 =
      .error "executing show version: not connected - call Connect() first" :=
  (C1_discover_never_connects
    { creds := .ok { username := "admin", password := "pw" },
      exec := fun _ => { stdoutBytes := "HP J9624A ProCurve" } }
    "10.0.0.1" 22 30000000000
    { events := [], files := [], cacheFs := [], records := [] }
    { username := "admin", password := "pw" } rfl).1
